import Mathlib

/-!
Verification of the LINSTOR python client REST layer (`linstor/linstorapi.py`).

The development shallowly embeds the REST request/response translation layer:
JSON payload classification (`Linstor.__convert_rest_response`), the dispatch
table `Linstor.APICALL2RESPONSE`, the request dispatcher `Linstor._rest_request`
with its reconnect-and-retry policy, `Linstor.connect` with its TLS discovery,
plaintext-credentials guard and version gate, `MultiLinstor.connect` failover,
and `Linstor.parse_volume_size_to_kib`.

External effects (sockets, gzip, JSON parsing) are modelled as oracles supplied
as explicit arguments, so every definition stays executable.
-/

deriving instance DecidableEq for Except

namespace Linstor

/-- A parsed JSON value, the result of python `json.loads`. -/
inductive Json where
  | null
  | bool (b : Bool)
  | num (n : Int)
  | str (s : String)
  | arr (xs : List Json)
  | obj (kvs : List (String × Json))

/-- Python iteration `for x in data` over a parsed JSON value: a list yields its
elements, a dict its keys, a string its one-character strings; numbers, booleans
and null are not iterable (python raises `TypeError`, modelled as `none`). -/
def pyIterate : Json → Option (List Json)
  | .arr xs => some xs
  | .obj kvs => some (kvs.map (fun kv => .str kv.1))
  | .str s => some (s.toList.map (fun c => .str (String.mk [c])))
  | _ => none

/-- Substring test on character lists, python `needle in hay` for strings. -/
def strContainsSub (needle : List Char) : List Char → Bool
  | [] => needle.isEmpty
  | c :: rest => needle.isPrefixOf (c :: rest) || strContainsSub needle rest

/-- Python equality of a parsed JSON value with the python string
`"ret_code"`: only the JSON string `"ret_code"` compares equal. -/
def jsonIsRetCodeStr : Json → Bool
  | .str s => s == "ret_code"
  | _ => false

/-- Python membership `"ret_code" in data` on a parsed JSON value: on a list it
tests whether some element equals the string, on a dict whether it is a key, on
a string whether it is a substring; otherwise python raises `TypeError`
(modelled as `none`). -/
def pyContainsRetCode : Json → Option Bool
  | .arr xs => some (xs.any jsonIsRetCodeStr)
  | .obj kvs => some (kvs.any (fun kv => kv.1 == "ret_code"))
  | .str s => some (strContainsSub "ret_code".toList s.toList)
  | _ => none

/-- The response classes of `linstor/responses.py` that appear in
`Linstor.APICALL2RESPONSE`, plus the default `ApiCallResponse`.  The classes
themselves are passive data holders wrapping the JSON payload handed to their
constructor. -/
inductive ResponseClass where
  | apiCallResponse
  | errorReport
  | nodeListResponse
  | storagePoolListResponse
  | resourceDefinitionResponse
  | resourceGroupResponse
  | volumeGroupResponse
  | volumeDefinitionResponse
  | resourceResponse
  | volumeResponse
  | snapshotResponse
  | controllerProperties
  | resourceConnectionsResponse
  | storagePoolDefinitionResponse
  | maxVolumeSizeResponse
  | keyValueStoresResponse
  | controllerVersion
deriving DecidableEq, Repr

/-- The API operation identifiers from `linstor/sharedconsts.py` that key
`Linstor.APICALL2RESPONSE`, plus `other` for every identifier that is not a key
of the dispatch table. -/
inductive ApiCall where
  | lstNode
  | lstStorPool
  | lstRscDfn
  | lstRscGrp
  | lstVlmGrp
  | lstVlmDfn
  | lstRsc
  | lstVlm
  | lstSnapshotDfn
  | reqErrorReports
  | lstCtrlProps
  | reqRscConnList
  | lstStorPoolDfn
  | qryMaxVlmSize
  | lstKvs
  | version
  | other (s : String)
deriving DecidableEq, Repr

/-- The lookup `Linstor.APICALL2RESPONSE.get(apicall, ApiCallResponse)`: the dispatch
table of `linstorapi.py` with its dictionary-lookup default. -/
def APICALL2RESPONSE : ApiCall → ResponseClass
  | .lstNode => .nodeListResponse
  | .lstStorPool => .storagePoolListResponse
  | .lstRscDfn => .resourceDefinitionResponse
  | .lstRscGrp => .resourceGroupResponse
  | .lstVlmGrp => .volumeGroupResponse
  | .lstVlmDfn => .volumeDefinitionResponse
  | .lstRsc => .resourceResponse
  | .lstVlm => .volumeResponse
  | .lstSnapshotDfn => .snapshotResponse
  | .reqErrorReports => .errorReport
  | .lstCtrlProps => .controllerProperties
  | .reqRscConnList => .resourceConnectionsResponse
  | .lstStorPoolDfn => .storagePoolDefinitionResponse
  | .qryMaxVlmSize => .maxVolumeSizeResponse
  | .lstKvs => .keyValueStoresResponse
  | .version => .controllerVersion
  | .other _ => .apiCallResponse

/-- A response object built by the classifier: the response class applied to
the JSON value handed to its constructor (the classes store their input). -/
structure RestResult where
  cls : ResponseClass
  data : Json

/-- Modelled from the spec: the exception taxonomy of the absent
`linstor/errors.py` (network, timeout, API-call and argument errors, all
distinct subclasses of the base error) together with the python builtin
exceptions the dispatcher can let escape (`BadStatusLine`, `TypeError`,
`ValueError` from `StrictVersion`).  `oracleExhausted` is a modelling artifact:
the outcome oracle ran out of supplied outcomes; theorems always supply enough
outcomes for it not to occur. -/
inductive LinError where
  | linstorError (msg : String)
  | networkError (msg : String)
  | timeoutError (msg : String)
  | apiCallError (msg : String)
  | argumentError (msg : String)
  | badStatusLine
  | typeError
  | valueError (msg : String)
  | oracleExhausted
deriving DecidableEq, Repr

/-- Python `isinstance(e, LinstorNetworkError)`; per the spec taxonomy the other error
kinds are not subclasses of the network error. -/
def LinError.isNetworkError : LinError → Bool
  | .networkError _ => true
  | _ => false

/-- A raw HTTP response as consumed by `_decode_response_data`: the
`Content-Encoding` header (absent means the default `"text"`) and the body
bytes returned by `response.read()`. -/
structure RestResponse where
  contentEncoding : Option String
  body : List Nat

/-- Oracles for the external effects of the dispatcher: gzip decompression
(`zlib.decompress`), JSON parsing (`json.loads`, returning the parser message
on failure), and the outcome of `self.connect()` during a keep-alive retry. -/
structure RestEnv where
  gunzip : List Nat → List Nat
  parseJson : List Nat → Except String Json
  reconnectOutcome : Except LinError Unit

/-- Method `Linstor._decode_response_data`: gunzip the body iff the response declares
`Content-Encoding: gzip` (header default `"text"`). -/
def decode_response_data (env : RestEnv) (response : RestResponse) : List Nat :=
  if response.contentEncoding.getD "text" == "gzip" then
    env.gunzip response.body
  else
    response.body

/-- Method `Linstor.__convert_rest_response`: decode and parse the payload, then
dispatch on the registered response class.  For `ApiCallResponse`/`ErrorReport`
wrap every element; otherwise wrap every element as `ApiCallResponse` when
python `"ret_code" in data` holds, else wrap the whole payload as one instance
of the registered class. -/
def convert_rest_response (env : RestEnv) (apicall : ApiCall) (response : RestResponse)
    (status : Nat) (path : String) : Except LinError (List RestResult) :=
  let resp_data := decode_response_data env response
  match env.parseJson resp_data with
  | .error ve =>
      .error (.linstorError
        ("Unable to parse REST json data: " ++ ve ++ "\nRequest-Uri: " ++ path ++
          "; Status: " ++ toString status))
  | .ok data =>
      let response_class := APICALL2RESPONSE apicall
      if response_class = .apiCallResponse ∨ response_class = .errorReport then
        match pyIterate data with
        | none => .error .typeError
        | some xs => .ok (xs.map (fun x => RestResult.mk response_class x))
      else
        match pyContainsRetCode data with
        | none => .error .typeError
        | some true =>
            match pyIterate data with
            | none => .error .typeError
            | some xs => .ok (xs.map (fun x => RestResult.mk .apiCallResponse x))
        | some false => .ok [RestResult.mk response_class data]

/-- Client configuration fields of `Linstor.__init__` used by
`_rest_request`. -/
structure RestCfg where
  ctrlHost : String
  timeout : Nat
  keepAlive : Bool
  modeCurl : Bool

/-- Outcome of `self._rest_conn.getresponse()` plus reading the response: a
full response with its HTTP status, a `socket.timeout`, a `socket.error`, or a
`BadStatusLine` (abrupt connection close). -/
inductive RespOutcome where
  | status (code : Nat) (response : RestResponse)
  | timeout
  | socketError (msg : String)
  | badStatusLine

/-- The observable outcome of one network attempt of `_rest_request`: whether
`self._rest_conn.request(...)` raises `socket.error` (with its message), and
otherwise the read outcome. -/
structure Attempt where
  sendFails : Option String
  resp : RespOutcome

/-- Result of one `_rest_request` call: the returned list or raised error,
the number of network attempts made, and the number of reconnects performed. -/
structure RestCallResult where
  result : Except LinError (List RestResult)
  attemptsMade : Nat
  reconnects : Nat

/-- Method `Linstor._rest_request`: curl mode short-circuits; a `socket.error` while
sending raises a network error; a status < 400 delegates to the classifier; a
status >= 400 wraps a parseable non-empty body per element as
`ApiCallResponse`, raises a parse error naming the path, or raises an error
naming method, path and status when the body is empty; a read-time
`socket.error` or `BadStatusLine` reconnects and retries exactly once when
keep-alive is enabled and `reconnect` is still true, else raises (a network
error, respectively the re-raised `BadStatusLine`).  Successive attempt
outcomes are consumed from `attempts`. -/
def rest_request (cfg : RestCfg) (env : RestEnv) (apicall : ApiCall) (method : String)
    (path : String) (attempts : List Attempt) (reconnect : Bool) : RestCallResult :=
  if cfg.modeCurl then ⟨.ok [], 0, 0⟩
  else
    match attempts with
    | [] => ⟨.error .oracleExhausted, 0, 0⟩
    | a :: rest =>
      match a.sendFails with
      | some err =>
          ⟨.error (.networkError ("Unable to connect to " ++ cfg.ctrlHost ++ ": " ++ err)), 1, 0⟩
      | none =>
        match a.resp with
        | .status code response =>
            if code < 400 then
              ⟨convert_rest_response env apicall response code path, 1, 0⟩
            else
              let error_data_raw := decode_response_data env response
              if error_data_raw ≠ [] then
                match env.parseJson error_data_raw with
                | .error ve =>
                    ⟨.error (.linstorError
                      ("Unable to parse REST json data: " ++ ve ++ "\nRequest-Uri: " ++ path)),
                      1, 0⟩
                | .ok error_data =>
                    match pyIterate error_data with
                    | none => ⟨.error .typeError, 1, 0⟩
                    | some xs =>
                        ⟨.ok (xs.map (fun x => RestResult.mk .apiCallResponse x)), 1, 0⟩
              else
                ⟨.error (.linstorError
                  ("REST api call method " ++ method ++ " to resource " ++ path ++
                    " returned status " ++ toString code ++ " with no data.")), 1, 0⟩
        | .timeout =>
            ⟨.error (.timeoutError
              ("Socket timeout, no data received for more than " ++ toString cfg.timeout ++ "s.")),
              1, 0⟩
        | .socketError err =>
            if cfg.keepAlive ∧ reconnect then
              match env.reconnectOutcome with
              | .error e => ⟨.error e, 1, 1⟩
              | .ok _ =>
                  let r := rest_request cfg env apicall method path rest false
                  ⟨r.result, r.attemptsMade + 1, r.reconnects + 1⟩
            else
              ⟨.error (.networkError
                ("Error reading response from " ++ cfg.ctrlHost ++ ": " ++ err)), 1, 0⟩
        | .badStatusLine =>
            if cfg.keepAlive ∧ reconnect then
              match env.reconnectOutcome with
              | .error e => ⟨.error e, 1, 1⟩
              | .ok _ =>
                  let r := rest_request cfg env apicall method path rest false
                  ⟨r.result, r.attemptsMade + 1, r.reconnects + 1⟩
            else
              ⟨.error .badStatusLine, 1, 0⟩

/-- Constant `Linstor.REST_PORT`. -/
def REST_PORT : Nat := 3370

/-- Constant `Linstor.REST_HTTPS_PORT`. -/
def REST_HTTPS_PORT : Nat := 3371

/-- Constant `API_VERSION_MIN` of `linstorapi.py`. -/
def API_VERSION_MIN : String := "1.0.4"

/-- Python `s.startswith(pre)`. -/
def pyStartswith (s pre : String) : Bool :=
  pre.toList.isPrefixOf s.toList

/-- Python `c.lower()` on a single character (ASCII). -/
def lowerChar (c : Char) : Char :=
  if c.isUpper then Char.ofNat (c.toNat + 32) else c

/-- Python `s.lower()` (ASCII). -/
def pyLower (s : String) : String :=
  String.mk (s.toList.map lowerChar)

/-- Numeric value of a run of decimal digit characters (python `int`). -/
def natOfDigits (cs : List Char) : Nat :=
  cs.foldl (fun acc c => acc * 10 + (c.toNat - 48)) 0

/-- A non-empty all-digit component of a version string. -/
def parseNatStrict (cs : List Char) : Option Nat :=
  if cs ≠ [] ∧ cs.all Char.isDigit then some (natOfDigits cs) else none

/-- Parsing of `distutils.version.StrictVersion`, restricted to the numeric core
`major.minor[.patch]` (pre-release tags are outside the modelled domain); a
missing patch component defaults to 0, anything else raises `ValueError`. -/
def strictVersionParse (s : String) : Option (Nat × Nat × Nat) :=
  match (s.toList.splitOn '.').mapM parseNatStrict with
  | some [a, b] => some (a, b, 0)
  | some [a, b, c] => some (a, b, c)
  | _ => none

/-- Construction `StrictVersion(s)` as an exception-raising computation. -/
def strictVersion (s : String) : Except LinError (Nat × Nat × Nat) :=
  match strictVersionParse s with
  | some v => .ok v
  | none => .error (.valueError ("invalid version number " ++ s))

/-- Strict ordering of parsed versions, `StrictVersion.__lt__`. -/
def versionLtB (a b : Nat × Nat × Nat) : Bool :=
  a.1 < b.1 ∨ (a.1 = b.1 ∧ (a.2.1 < b.2.1 ∨ (a.2.1 = b.2.1 ∧ a.2.2 < b.2.2)))

/-- Configuration of a single `Linstor` instance as far as `connect` reads it:
the parsed controller URI (`urlparse` output), credentials, the insecure-mode
flag, curl mode, and the `_connected` flag before the call. -/
structure ConnectCfg where
  scheme : String
  hostname : String
  urlPort : Option Nat
  username : Option String
  allowInsecure : Bool
  modeCurl : Bool
  connectedBefore : Bool

/-- Outcome of the plaintext version probe `has_linstor_https` performs: the
probe connection fails to open (`socket.error` before the request is sent), the
probe request is sent but reading fails (`socket.error`), or a response arrives
with a status and the port of its `Location` header. -/
inductive ProbeOutcome where
  | connectFail
  | readFail
  | response (status : Nat) (locationPort : Option Nat)

/-- Requests observable on the network during `connect`: the plaintext
TLS-discovery probe request of `has_linstor_https`, and the version query
issued on the established transport. -/
inductive NetEvent where
  | probeRequest
  | versionRequest
deriving DecidableEq, Repr

/-- Oracles for the external effects of `connect`: the probe outcome, whether
`self._rest_conn.connect()` succeeds, and the outcome of
`self.controller_version()` (the advertised `rest_api_version` string, or the
error the underlying `_rest_request` raises). -/
structure ConnectEnv where
  probe : ProbeOutcome
  transportConnect : Bool
  versionResult : Except LinError String

/-- Method `Linstor.has_linstor_https`: probe the plaintext port with a version
request; on a 302 answer return the port of the `Location` header, on anything
else (including `socket.error`) return 0; a missing `Location` port behaves
like 0 (python `None` is falsy at the call site).  Also returns the network
requests the probe sent. -/
def has_linstor_https : ProbeOutcome → Nat × List NetEvent
  | .connectFail => (0, [])
  | .readFail => (0, [.probeRequest])
  | .response status locationPort =>
      (if status == 302 then locationPort.getD 0 else 0, [.probeRequest])

/-- Observable result of one `connect` call: the return value or raised error,
the `_connected` flag afterwards, the transport created (`some true` = TLS,
`some false` = plaintext, `none` = none created), whether `close()` was called
on it, and the network requests sent, in order. -/
structure ConnectResult where
  outcome : Except LinError Bool
  connected : Bool
  transportHttps : Option Bool
  transportClosed : Bool
  events : List NetEvent

/-- The scheme/port resolution and TLS-discovery phase of `Linstor.connect`:
for the secure schemes use the URI port or the HTTPS default; otherwise probe
via `has_linstor_https` and upgrade to the redirect port when one is reported.
Returns (is_https, port, probe network events). -/
def connect_resolution (cfg : ConnectCfg) (env : ConnectEnv) : Bool × Nat × List NetEvent :=
  let port0 : Nat :=
    match cfg.urlPort with
    | some p => if p == 0 then REST_PORT else p
    | none => REST_PORT
  if cfg.scheme == "linstor+ssl" || cfg.scheme == "https" then
    (true, (if cfg.urlPort = none then REST_HTTPS_PORT else port0), [])
  else
    let probed := has_linstor_https env.probe
    if probed.1 ≠ 0 then (true, probed.1, probed.2) else (false, port0, probed.2)

/-- The transport-creation and handshake phase of `Linstor.connect` after
scheme resolution: reject a plaintext transport when a username is set and
insecure mode is not allowed; open the transport (a `socket.error` is wrapped
as a network error), query the controller version, and fail with the version
error when the advertised version does not start with "1" or is strictly below
`API_VERSION_MIN`, closing the transport; set `_connected` only on success. -/
def connect_after_resolution (cfg : ConnectCfg) (env : ConnectEnv)
    (is_https : Bool) (events : List NetEvent) : ConnectResult :=
  if ¬ is_https ∧ cfg.username.isSome ∧ ¬ cfg.allowInsecure then
    { outcome := .error (.networkError
        "Password authentication with HTTP not allowed, until explicitly enabled."),
      connected := cfg.connectedBefore, transportHttps := none,
      transportClosed := false, events }
  else
    if ¬ env.transportConnect then
      { outcome := .error (.networkError ("Unable to connect to " ++ cfg.hostname)),
        connected := cfg.connectedBefore, transportHttps := some is_https,
        transportClosed := false, events }
    else
      match env.versionResult with
      | .error e =>
          { outcome := .error e, connected := cfg.connectedBefore,
            transportHttps := some is_https, transportClosed := false,
            events := events ++ [.versionRequest] }
      | .ok v =>
          let events := events ++ [.versionRequest]
          let versionError : ConnectResult :=
            { outcome := .error (.apiCallError
                ("Client doesnt support Controller rest api version: " ++ v ++
                  "; Minimal version needed: " ++ API_VERSION_MIN)),
              connected := cfg.connectedBefore, transportHttps := some is_https,
              transportClosed := true, events }
          if ¬ pyStartswith v "1" then
            versionError
          else
            match strictVersion API_VERSION_MIN with
            | .error e =>
                { outcome := .error e, connected := cfg.connectedBefore,
                  transportHttps := some is_https, transportClosed := false, events }
            | .ok minv =>
              match strictVersion v with
              | .error e =>
                  { outcome := .error e, connected := cfg.connectedBefore,
                    transportHttps := some is_https, transportClosed := false, events }
              | .ok pv =>
                  if versionLtB pv minv then
                    versionError
                  else
                    { outcome := .ok true, connected := true,
                      transportHttps := some is_https, transportClosed := false, events }

/-- Method `Linstor.connect`: curl mode short-circuits, otherwise the resolution phase
followed by the handshake phase. -/
def connect (cfg : ConnectCfg) (env : ConnectEnv) : ConnectResult :=
  if cfg.modeCurl then
    { outcome := .ok true, connected := true, transportHttps := none,
      transportClosed := false, events := [] }
  else
    let resolved := connect_resolution cfg env
    connect_after_resolution cfg env resolved.1 resolved.2.2

/-- Result of `MultiLinstor.connect`: success records the endpoint the client
ended up connected to and the network errors collected for the endpoints tried
before it; `aggregateError` is the final `LinstorNetworkError` carrying all
collected causes; `raised` is an exception that escaped the
`except LinstorNetworkError` handler, with the causes collected so far and the
endpoints left untried; `noneResult` is python falling off the function end. -/
inductive MultiConnectResult where
  | connected (host : String) (recorded : List LinError)
  | aggregateError (causes : List LinError)
  | raised (e : LinError) (recorded : List LinError) (untried : List String)
  | noneResult

/-- The loop of `MultiLinstor.connect`: try each host via `Linstor.connect`
(outcome supplied by the `outcome` oracle), return on the first success, append
`LinstorNetworkError`s to `conn_errors`, let any other exception escape; after
the loop raise the aggregate error when one cause was collected per configured
host. -/
def multi_connect_go (outcome : String → Except LinError Unit) (total : Nat) :
    List String → List LinError → MultiConnectResult
  | [], conn_errors =>
      if conn_errors.length == total then .aggregateError conn_errors else .noneResult
  | ctrl_host :: rest, conn_errors =>
      match outcome ctrl_host with
      | .ok _ => .connected ctrl_host conn_errors
      | .error e =>
          if e.isNetworkError then
            multi_connect_go outcome total rest (conn_errors ++ [e])
          else
            .raised e conn_errors rest

/-- Method `MultiLinstor.connect` over the configured ordered endpoint list. -/
def multi_connect (hosts : List String) (outcome : String → Except LinError Unit) :
    MultiConnectResult :=
  multi_connect_go outcome hosts.length hosts []

/-- Modelled from the spec: the size units of the absent
`linstor/size_calc.py`, binary units KiB through PiB. -/
inductive SizeUnit where
  | kib
  | mib
  | gib
  | tib
  | pib
deriving DecidableEq, Repr

/-- Modelled from the spec: bytes per unit for the binary units. -/
def SizeUnit.factor : SizeUnit → Nat
  | .kib => 1024
  | .mib => 1024 ^ 2
  | .gib => 1024 ^ 3
  | .tib => 1024 ^ 4
  | .pib => 1024 ^ 5

/-- Modelled from the spec: `SizeCalc.UNITS_MAP`, keyed by the lower-cased
unit spelling (short and IEC forms); unknown spellings are absent
(`KeyError`). -/
def UNITS_MAP : String → Option SizeUnit
  | "k" => some .kib
  | "kib" => some .kib
  | "m" => some .mib
  | "mib" => some .mib
  | "g" => some .gib
  | "gib" => some .gib
  | "t" => some .tib
  | "tib" => some .tib
  | "p" => some .pib
  | "pib" => some .pib
  | _ => none

/-- Modelled from the spec: `SizeCalc.convert_round_up`, converting between
units rounding up. -/
def convert_round_up (size : Nat) (unitIn unitOut : SizeUnit) : Nat :=
  (size * unitIn.factor + (unitOut.factor - 1)) / unitOut.factor

/-- Method `Linstor.parse_volume_size_to_kib`: match `(\d+)(\D*)` (no leading digit
raises the number argument error), default the unit suffix to GiB, look it up
lower-cased in `UNITS_MAP` (an unknown suffix raises the unit argument error),
and convert the number to KiB rounding up. -/
def parse_volume_size_to_kib (size_str : String) : Except LinError Nat :=
  let digits := size_str.toList.takeWhile Char.isDigit
  if digits = [] then
    .error (.argumentError ("Size " ++ size_str ++ " is not a valid number"))
  else
    let size := natOfDigits digits
    let unit_chars := (size_str.toList.drop digits.length).takeWhile (fun c => ¬ c.isDigit)
    let unit_str := if unit_chars = [] then "GiB" else String.mk unit_chars
    match UNITS_MAP (pyLower unit_str) with
    | none =>
        .error (.argumentError (unit_str ++ " is not a valid unit! Valid units: k,m,g,t,p"))
    | some unit =>
        if unit ≠ SizeUnit.kib then
          .ok (convert_round_up size unit SizeUnit.kib)
        else
          .ok size

/-- The phrase of the spec "carries a return-code field": the JSON value is an
object with a `ret_code` key. -/
def hasRetCodeField : Json → Bool
  | .obj kvs => kvs.any (fun kv => kv.1 == "ret_code")
  | _ => false

/-- The leading maximal digit run of a digit block followed by a non-digit
block is the digit block. -/
theorem takeWhile_digit_append (ds us : List Char)
    (hdig : ∀ c ∈ ds, c.isDigit = true) (hnd : ∀ c ∈ us, c.isDigit = false) :
    (ds ++ us).takeWhile Char.isDigit = ds := by
  induction ds with
  | nil =>
      cases us with
      | nil => rfl
      | cons c t => simp [List.takeWhile_cons, hnd c (by simp)]
  | cons d ds ih =>
      rw [List.cons_append, List.takeWhile_cons, hdig d (by simp)]
      simp only [if_true]
      rw [ih (fun c hc => hdig c (by simp [hc]))]

/-- A block of non-digit characters is its own maximal non-digit run. -/
theorem takeWhile_not_digit_all (us : List Char) (hnd : ∀ c ∈ us, c.isDigit = false) :
    us.takeWhile (fun c => ¬ c.isDigit) = us := by
  induction us with
  | nil => rfl
  | cons c t ih =>
      rw [List.takeWhile_cons, if_pos (by simp [hnd c (by simp)]),
        ih fun x hx => hnd x (by simp [hx])]

/-- Converting KiB to KiB rounding up is the identity. -/
theorem convert_round_up_kib_self (n : Nat) : convert_round_up n .kib .kib = n := by
  show (n * 1024 + (1024 - 1)) / 1024 = n
  rw [Nat.mul_comm, Nat.mul_add_div (by norm_num)]
  norm_num

/-- C9: the volume-size parser maps "2TiB" to 2 x 1024 ^ 3 KiB and raises an
argument error for "5x" (unknown unit); in general a leading decimal integer
followed by a known unit suffix is scaled by that unit and converted, rounding
up, to KiB, and a missing suffix defaults to GiB. -/
theorem parse_volume_size_spec :
    parse_volume_size_to_kib "2TiB" = .ok (2 * 1024 ^ 3) ∧
    parse_volume_size_to_kib "5x" =
      .error (.argumentError "x is not a valid unit! Valid units: k,m,g,t,p") ∧
    (∀ (ds : List Char) (s : String) (u : SizeUnit),
      ds ≠ [] → (∀ c ∈ ds, c.isDigit = true) →
      s.toList ≠ [] → (∀ c ∈ s.toList, c.isDigit = false) →
      UNITS_MAP (pyLower s) = some u →
      parse_volume_size_to_kib (String.mk (ds ++ s.toList)) =
        .ok (convert_round_up (natOfDigits ds) u .kib)) ∧
    (∀ ds : List Char,
      ds ≠ [] → (∀ c ∈ ds, c.isDigit = true) →
      parse_volume_size_to_kib (String.mk ds) =
        .ok (convert_round_up (natOfDigits ds) .gib .kib)) := by
  refine ⟨by decide, by decide, ?_, ?_⟩
  · intro ds s u hds hdig hne hnd hu
    have htake := takeWhile_digit_append ds s.toList hdig hnd
    have hdrop : (ds ++ s.toList).drop ds.length = s.toList := List.drop_left ds s.toList
    have htake2 := takeWhile_not_digit_all s.toList hnd
    have hu2 : UNITS_MAP (pyLower (String.mk s.toList)) = some u := hu
    simp only [parse_volume_size_to_kib]
    rw [show (String.mk (ds ++ s.toList)).toList = ds ++ s.toList from rfl]
    rw [htake, if_neg hds, hdrop, htake2, if_neg hne, hu2]
    by_cases hk : u = SizeUnit.kib
    · subst hk
      simp [convert_round_up_kib_self]
    · simp [hk]
  · intro ds hds hdig
    have htake : ds.takeWhile Char.isDigit = ds := by
      have h := takeWhile_digit_append ds [] hdig (by simp)
      rwa [List.append_nil] at h
    simp only [parse_volume_size_to_kib]
    rw [show (String.mk ds).toList = ds from rfl]
    rw [htake, if_neg hds, List.drop_length]
    simp only [List.takeWhile_nil, reduceIte]
    rw [show UNITS_MAP (pyLower "GiB") = some SizeUnit.gib from rfl]
    simp

/-- Witness for the general clauses of C9: "7m" is 7 MiB = 7168 KiB via the suffix
clause, "9" is 9 GiB via the default clause. -/
theorem parse_volume_size_spec_witness :
    parse_volume_size_to_kib "7m" = .ok 7168 ∧
    parse_volume_size_to_kib "9" = .ok (9 * 1024 * 1024) := by
  constructor
  · exact parse_volume_size_spec.2.2.1 ['7'] "m" .mib (by decide) (by decide)
      (by decide) (by decide) rfl
  · exact parse_volume_size_spec.2.2.2 ['9'] (by decide) (by decide)

/-- C8: for an operation identifier that is unmapped in the dispatch table
(defaulting to the status-reply class) or mapped to the status-reply or
diagnostic-report class, decoding a parsed JSON array wraps each array element
individually in that class, preserving order. -/
theorem convert_generic_per_element (env : RestEnv) (apicall : ApiCall)
    (response : RestResponse) (status : Nat) (path : String) (xs : List Json)
    (hcls : APICALL2RESPONSE apicall = .apiCallResponse ∨
      APICALL2RESPONSE apicall = .errorReport)
    (hparse : env.parseJson (decode_response_data env response) = .ok (.arr xs)) :
    convert_rest_response env apicall response status path =
      .ok (xs.map (fun x => RestResult.mk (APICALL2RESPONSE apicall) x)) := by
  simp only [convert_rest_response, hparse, if_pos hcls, pyIterate]

/-- Witness for C8 at a diagnostic-report operation and a two-element array. -/
theorem convert_generic_per_element_witness :
    convert_rest_response
        ⟨id, fun _ => .ok (.arr [.obj [("id", .str "E1")], .obj [("id", .str "E2")]]),
          .ok ()⟩
        .reqErrorReports ⟨none, []⟩ 200 "/v1/error-reports" =
      .ok [⟨.errorReport, .obj [("id", .str "E1")]⟩, ⟨.errorReport, .obj [("id", .str "E2")]⟩] :=
  convert_generic_per_element _ .reqErrorReports ⟨none, []⟩ 200 "/v1/error-reports"
    [.obj [("id", .str "E1")], .obj [("id", .str "E2")]] (Or.inr rfl) rfl

/-- C1 counterexample: for an operation mapped to a structured class
(node list), a parsed JSON array whose every element carries a return-code
field is NOT wrapped per element as status replies; the membership test of the code,
`"ret_code" in data` inspects the array, not the fields of its elements, so the
whole array is wrapped as a single structured instance. -/
theorem convert_structured_all_retcode_not_per_element :
    (∀ e ∈ [Json.obj [("ret_code", Json.num 4)]], hasRetCodeField e = true) ∧
    APICALL2RESPONSE .lstNode = .nodeListResponse ∧
    convert_rest_response
        ⟨id, fun _ => .ok (.arr [.obj [("ret_code", .num 4)]]), .ok ()⟩
        .lstNode ⟨none, []⟩ 200 "/v1/nodes" =
      .ok [⟨.nodeListResponse, .arr [.obj [("ret_code", .num 4)]]⟩] ∧
    convert_rest_response
        ⟨id, fun _ => .ok (.arr [.obj [("ret_code", .num 4)]]), .ok ()⟩
        .lstNode ⟨none, []⟩ 200 "/v1/nodes" ≠
      .ok [⟨.apiCallResponse, .obj [("ret_code", .num 4)]⟩] := by
  refine ⟨by decide, rfl, rfl, ?_⟩
  intro h
  rw [show convert_rest_response
      ⟨id, fun _ => .ok (.arr [.obj [("ret_code", .num 4)]]), .ok ()⟩
      .lstNode ⟨none, []⟩ 200 "/v1/nodes" =
    .ok [⟨.nodeListResponse, .arr [.obj [("ret_code", .num 4)]]⟩] from rfl] at h
  simp at h

/-- C1 as amended: for an operation mapped to a structured class, decoding a
parsed JSON array wraps each element as a status reply exactly when the array
contains the literal JSON string "ret_code" as an element; otherwise - in
particular for every array of objects, whether or not they carry a return-code
field - it returns exactly one structured-response instance wrapping the whole
array. -/
theorem convert_structured_membership (env : RestEnv) (apicall : ApiCall)
    (response : RestResponse) (status : Nat) (path : String) (xs : List Json)
    (hcls1 : APICALL2RESPONSE apicall ≠ .apiCallResponse)
    (hcls2 : APICALL2RESPONSE apicall ≠ .errorReport)
    (hparse : env.parseJson (decode_response_data env response) = .ok (.arr xs)) :
    (xs.any jsonIsRetCodeStr = true →
      convert_rest_response env apicall response status path =
        .ok (xs.map (fun x => RestResult.mk .apiCallResponse x))) ∧
    (xs.any jsonIsRetCodeStr = false →
      convert_rest_response env apicall response status path =
        .ok [RestResult.mk (APICALL2RESPONSE apicall) (.arr xs)]) ∧
    (∀ e ∈ xs, hasRetCodeField e = true → jsonIsRetCodeStr e = false) := by
  have hnot : ¬ (APICALL2RESPONSE apicall = .apiCallResponse ∨
      APICALL2RESPONSE apicall = .errorReport) := by
    rintro (h | h) <;> [exact hcls1 h; exact hcls2 h]
  refine ⟨?_, ?_, ?_⟩
  · intro hmem
    simp only [convert_rest_response, hparse, if_neg hnot, pyContainsRetCode, hmem, pyIterate]
  · intro hmem
    simp only [convert_rest_response, hparse, if_neg hnot, pyContainsRetCode, hmem]
  · intro e _ hfield
    cases e <;> simp_all [hasRetCodeField, jsonIsRetCodeStr]

/-- Witness for the amended C1: both dispatch directions at concrete inputs. -/
theorem convert_structured_membership_witness :
    convert_rest_response
        ⟨id, fun _ => .ok (.arr [.str "ret_code"]), .ok ()⟩
        .lstStorPool ⟨none, []⟩ 200 "/v1/storage-pools" =
      .ok [⟨.apiCallResponse, .str "ret_code"⟩] ∧
    convert_rest_response
        ⟨id, fun _ => .ok (.arr [.obj [("name", .str "sp1")]]), .ok ()⟩
        .lstStorPool ⟨none, []⟩ 200 "/v1/storage-pools" =
      .ok [⟨.storagePoolListResponse, .arr [.obj [("name", .str "sp1")]]⟩] := by
  constructor
  · exact (convert_structured_membership _ .lstStorPool ⟨none, []⟩ 200 "/v1/storage-pools"
      [.str "ret_code"] (by decide) (by decide) rfl).1 rfl
  · exact (convert_structured_membership _ .lstStorPool ⟨none, []⟩ 200 "/v1/storage-pools"
      [.obj [("name", .str "sp1")]] (by decide) (by decide) rfl).2.1 rfl

/-- A dispatch call whose `reconnect` flag is already cleared makes exactly one
network attempt and never reconnects, whatever the outcome of that attempt. -/
theorem rest_request_cleared_flag_single_attempt (cfg : RestCfg) (env : RestEnv)
    (apicall : ApiCall) (method path : String) (a : Attempt) (rest : List Attempt)
    (hcurl : cfg.modeCurl = false) :
    (rest_request cfg env apicall method path (a :: rest) false).attemptsMade = 1 ∧
    (rest_request cfg env apicall method path (a :: rest) false).reconnects = 0 := by
  rcases a with ⟨sf, resp⟩
  cases sf <;> cases resp <;>
    simp only [rest_request, hcurl] <;>
    (repeat' split) <;> simp_all

/-- C2: with keep-alive enabled, a read-time socket failure or an abrupt
connection close (`BadStatusLine`) on the first attempt triggers exactly one
reconnect and exactly one retried call (two attempts in total, whatever the
retried call does); the overall result is the result of the retried call computed
with the retry flag cleared, and when the retried call fails at read time with
a socket error the call raises the reading network error without any further
reconnect or retry. -/
theorem rest_request_reconnect_retry (cfg : RestCfg) (env : RestEnv) (apicall : ApiCall)
    (method path : String) (a1 a2 : Attempt) (rest : List Attempt)
    (hka : cfg.keepAlive = true) (hcurl : cfg.modeCurl = false)
    (hsend : a1.sendFails = none)
    (hfail : (∃ m, a1.resp = .socketError m) ∨ a1.resp = .badStatusLine)
    (hrc : env.reconnectOutcome = .ok ()) :
    (rest_request cfg env apicall method path (a1 :: a2 :: rest) true).reconnects = 1 ∧
    (rest_request cfg env apicall method path (a1 :: a2 :: rest) true).attemptsMade = 2 ∧
    (rest_request cfg env apicall method path (a1 :: a2 :: rest) true).result =
      (rest_request cfg env apicall method path (a2 :: rest) false).result ∧
    (∀ m2, a2.sendFails = none → a2.resp = .socketError m2 →
      (rest_request cfg env apicall method path (a1 :: a2 :: rest) true).result =
        .error (.networkError ("Error reading response from " ++ cfg.ctrlHost ++ ": " ++ m2))) := by
  have hcnt := rest_request_cleared_flag_single_attempt cfg env apicall method path a2 rest hcurl
  have hstep : rest_request cfg env apicall method path (a1 :: a2 :: rest) true =
      ⟨(rest_request cfg env apicall method path (a2 :: rest) false).result,
        (rest_request cfg env apicall method path (a2 :: rest) false).attemptsMade + 1,
        (rest_request cfg env apicall method path (a2 :: rest) false).reconnects + 1⟩ := by
    rcases hfail with ⟨m, hm⟩ | hm <;>
      (conv_lhs => rw [rest_request]) <;>
      simp only [hcurl, hsend, hm, hka, hrc, Bool.false_eq_true, if_false,
        reduceCtorEq, reduceIte, and_self, if_true]
  refine ⟨?_, ?_, ?_, ?_⟩
  · rw [hstep]; simp [hcnt.2]
  · rw [hstep]; simp [hcnt.1]
  · rw [hstep]
  · intro m2 h2send h2resp
    rw [hstep]
    simp only [rest_request, hcurl, h2send, h2resp]
    simp

/-- Witness for C2: concrete socket failures on both attempts. -/
theorem rest_request_reconnect_retry_witness :
    (rest_request ⟨"linstor://h", 300, true, false⟩ ⟨id, fun _ => .error "eof", .ok ()⟩
        .lstNode "GET" "/v1/nodes"
        [⟨none, .socketError "reset"⟩, ⟨none, .socketError "reset again"⟩] true).reconnects = 1 ∧
    (rest_request ⟨"linstor://h", 300, true, false⟩ ⟨id, fun _ => .error "eof", .ok ()⟩
        .lstNode "GET" "/v1/nodes"
        [⟨none, .socketError "reset"⟩, ⟨none, .socketError "reset again"⟩] true).attemptsMade = 2 ∧
    (rest_request ⟨"linstor://h", 300, true, false⟩ ⟨id, fun _ => .error "eof", .ok ()⟩
        .lstNode "GET" "/v1/nodes"
        [⟨none, .socketError "reset"⟩, ⟨none, .socketError "reset again"⟩] true).result =
      .error (.networkError "Error reading response from linstor://h: reset again") := by
  have h := rest_request_reconnect_retry ⟨"linstor://h", 300, true, false⟩
    ⟨id, fun _ => .error "eof", .ok ()⟩ .lstNode "GET" "/v1/nodes"
    ⟨none, .socketError "reset"⟩ ⟨none, .socketError "reset again"⟩ []
    rfl rfl rfl (Or.inl ⟨"reset", rfl⟩) rfl
  exact ⟨h.1, h.2.1, h.2.2.2 "reset again" rfl rfl⟩

/-- C7: on a response with status >= 400, a non-empty decoded body that parses
as a JSON array yields one status-reply result per array element; a non-empty
body that fails to parse raises the malformed-response error naming the request
path; an empty body raises the API error describing method, path and status. -/
theorem rest_request_error_status (cfg : RestCfg) (env : RestEnv) (apicall : ApiCall)
    (method path : String) (a : Attempt) (rest : List Attempt) (code : Nat)
    (response : RestResponse)
    (hcurl : cfg.modeCurl = false) (hsend : a.sendFails = none)
    (hresp : a.resp = .status code response) (hcode : 400 ≤ code) :
    (∀ xs, decode_response_data env response ≠ [] →
      env.parseJson (decode_response_data env response) = .ok (.arr xs) →
      (rest_request cfg env apicall method path (a :: rest) true).result =
        .ok (xs.map (fun x => RestResult.mk .apiCallResponse x))) ∧
    (∀ ve, decode_response_data env response ≠ [] →
      env.parseJson (decode_response_data env response) = .error ve →
      (rest_request cfg env apicall method path (a :: rest) true).result =
        .error (.linstorError
          ("Unable to parse REST json data: " ++ ve ++ "\nRequest-Uri: " ++ path))) ∧
    (decode_response_data env response = [] →
      (rest_request cfg env apicall method path (a :: rest) true).result =
        .error (.linstorError
          ("REST api call method " ++ method ++ " to resource " ++ path ++
            " returned status " ++ toString code ++ " with no data."))) := by
  have hnotlt : ¬ code < 400 := Nat.not_lt.mpr hcode
  refine ⟨?_, ?_, ?_⟩
  · intro xs hraw hparse
    simp only [rest_request, hcurl, hsend, hresp, if_neg hnotlt, if_pos hraw, hparse,
      pyIterate, Bool.false_eq_true, if_false]
  · intro ve hraw hparse
    simp only [rest_request, hcurl, hsend, hresp, if_neg hnotlt, if_pos hraw, hparse,
      Bool.false_eq_true, if_false]
  · intro hraw
    simp only [rest_request, hcurl, hsend, hresp, if_neg hnotlt, hraw,
      Bool.false_eq_true, if_false]
    simp

/-- Witness for C7: the three body shapes at concrete inputs. -/
theorem rest_request_error_status_witness :
    (rest_request ⟨"linstor://h", 300, false, false⟩
        ⟨id, fun b => if b = [1] then .ok (.arr [.obj [("ret_code", .num (-100))]])
          else .error "Expecting value", .ok ()⟩
        .lstNode "POST" "/v1/nodes" [⟨none, .status 500 ⟨none, [1]⟩⟩] true).result =
      .ok [⟨.apiCallResponse, .obj [("ret_code", .num (-100))]⟩] ∧
    (rest_request ⟨"linstor://h", 300, false, false⟩
        ⟨id, fun b => if b = [1] then .ok (.arr [.obj [("ret_code", .num (-100))]])
          else .error "Expecting value", .ok ()⟩
        .lstNode "POST" "/v1/nodes" [⟨none, .status 500 ⟨none, [2]⟩⟩] true).result =
      .error (.linstorError
        "Unable to parse REST json data: Expecting value\nRequest-Uri: /v1/nodes") ∧
    (rest_request ⟨"linstor://h", 300, false, false⟩
        ⟨id, fun b => if b = [1] then .ok (.arr [.obj [("ret_code", .num (-100))]])
          else .error "Expecting value", .ok ()⟩
        .lstNode "POST" "/v1/nodes" [⟨none, .status 500 ⟨none, []⟩⟩] true).result =
      .error (.linstorError
        "REST api call method POST to resource /v1/nodes returned status 500 with no data.") := by
  refine ⟨?_, ?_, ?_⟩
  · exact (rest_request_error_status _ _ .lstNode "POST" "/v1/nodes" _ [] 500 ⟨none, [1]⟩
      rfl rfl rfl (by decide)).1 [.obj [("ret_code", .num (-100))]] (by decide) rfl
  · exact (rest_request_error_status _ _ .lstNode "POST" "/v1/nodes" _ [] 500 ⟨none, [2]⟩
      rfl rfl rfl (by decide)).2.1 "Expecting value" (by decide) rfl
  · exact (rest_request_error_status _ _ .lstNode "POST" "/v1/nodes" _ [] 500 ⟨none, []⟩
      rfl rfl rfl (by decide)).2.2 rfl

/-- The handshake phase raises the version-incompatibility error (a
`LinstorApiCallError`), closes the transport and does not touch the
`_connected` flag whenever the advertised version parses strictly below the
minimum, whatever the resolved transport kind. -/
theorem after_resolution_version_low (cfg : ConnectCfg) (env : ConnectEnv)
    (is_https : Bool) (events : List NetEvent) (v : String) (pv : Nat × Nat × Nat)
    (hguard : cfg.username = none ∨ cfg.allowInsecure = true)
    (htrans : env.transportConnect = true)
    (hver : env.versionResult = .ok v)
    (hparse : strictVersionParse v = some pv)
    (hlow : versionLtB pv (1, 0, 4) = true) :
    connect_after_resolution cfg env is_https events =
      { outcome := .error (.apiCallError
          ("Client doesnt support Controller rest api version: " ++ v ++
            "; Minimal version needed: " ++ API_VERSION_MIN)),
        connected := cfg.connectedBefore, transportHttps := some is_https,
        transportClosed := true, events := events ++ [.versionRequest] } := by
  have hmin : strictVersion API_VERSION_MIN = .ok (1, 0, 4) := by decide
  have hv : strictVersion v = .ok pv := by simp [strictVersion, hparse]
  rcases hguard with hg | hg <;>
    by_cases hsw : pyStartswith v "1" <;>
    simp [connect_after_resolution, hg, htrans, hver, hsw, hmin, hv, hlow]

/-- The handshake phase raises the version-incompatibility error, closes the
transport and does not touch the `_connected` flag whenever the advertised
version does not start with "1", whatever the resolved transport kind. -/
theorem after_resolution_version_head (cfg : ConnectCfg) (env : ConnectEnv)
    (is_https : Bool) (events : List NetEvent) (v : String)
    (hguard : cfg.username = none ∨ cfg.allowInsecure = true)
    (htrans : env.transportConnect = true)
    (hver : env.versionResult = .ok v)
    (hsw : pyStartswith v "1" = false) :
    connect_after_resolution cfg env is_https events =
      { outcome := .error (.apiCallError
          ("Client doesnt support Controller rest api version: " ++ v ++
            "; Minimal version needed: " ++ API_VERSION_MIN)),
        connected := cfg.connectedBefore, transportHttps := some is_https,
        transportClosed := true, events := events ++ [.versionRequest] } := by
  rcases hguard with hg | hg <;>
    simp [connect_after_resolution, hg, htrans, hver, hsw]

/-- A string whose first character differs from the digit 1 does not satisfy
python `startswith("1")`. -/
theorem pyStartswith_one_eq_false (v : String) (c : Char)
    (hh : v.toList.head? = some c) (hc : c ≠ '1') :
    pyStartswith v "1" = false := by
  cases hl : v.toList with
  | nil => rw [hl] at hh; cases hh
  | cons a t =>
      rw [hl] at hh
      have hac : a = c := by injection hh
      subst hac
      have hbeq : ('1' == a) = false := by
        rw [beq_eq_false_iff_ne]
        exact fun h => hc h.symm
      have hld : v.data = a :: t := hl
      simp [pyStartswith, String.toList, hld, List.isPrefixOf, hbeq]

/-- C3: when the server advertises a version strictly below the client minimum
1.0.4, `connect` raises the version-incompatibility error, closes the
transport it opened, and leaves the `_connected` flag `false`. -/
theorem connect_version_below_min (cfg : ConnectCfg) (env : ConnectEnv)
    (v : String) (pv : Nat × Nat × Nat)
    (hcurl : cfg.modeCurl = false) (hconn : cfg.connectedBefore = false)
    (hguard : cfg.username = none ∨ cfg.allowInsecure = true)
    (htrans : env.transportConnect = true)
    (hver : env.versionResult = .ok v)
    (hparse : strictVersionParse v = some pv)
    (hlow : versionLtB pv (1, 0, 4) = true) :
    (∃ msg, (connect cfg env).outcome = .error (.apiCallError msg)) ∧
    (connect cfg env).connected = false ∧
    (connect cfg env).transportClosed = true := by
  have h := after_resolution_version_low cfg env (connect_resolution cfg env).1
    (connect_resolution cfg env).2.2 v pv hguard htrans hver hparse hlow
  have hc2 : connect cfg env = connect_after_resolution cfg env
      (connect_resolution cfg env).1 (connect_resolution cfg env).2.2 := by
    simp [connect, hcurl]
  rw [hc2, h]
  exact ⟨⟨_, rfl⟩, hconn, rfl⟩

/-- Witness for C3 at advertised version 1.0.3 over TLS. -/
theorem connect_version_below_min_witness :
    (∃ msg, (connect ⟨"linstor+ssl", "h", none, none, false, false, false⟩
        ⟨.connectFail, true, .ok "1.0.3"⟩).outcome = .error (.apiCallError msg)) ∧
    (connect ⟨"linstor+ssl", "h", none, none, false, false, false⟩
        ⟨.connectFail, true, .ok "1.0.3"⟩).connected = false ∧
    (connect ⟨"linstor+ssl", "h", none, none, false, false, false⟩
        ⟨.connectFail, true, .ok "1.0.3"⟩).transportClosed = true :=
  connect_version_below_min _ _ "1.0.3" (1, 0, 3) rfl rfl (Or.inl rfl) rfl rfl
    (by decide) (by decide)

/-- C4: when the advertised version string starts with a digit other than 1,
`connect` raises the version-incompatibility error, closes the transport and
leaves the `_connected` flag `false`, even though the version parses and is
numerically not below the minimum. -/
theorem connect_major_version_mismatch (cfg : ConnectCfg) (env : ConnectEnv)
    (v : String) (c : Char) (pv : Nat × Nat × Nat)
    (hcurl : cfg.modeCurl = false) (hconn : cfg.connectedBefore = false)
    (hguard : cfg.username = none ∨ cfg.allowInsecure = true)
    (htrans : env.transportConnect = true)
    (hver : env.versionResult = .ok v)
    (hh : v.toList.head? = some c) (hc : c ≠ '1')
    (hparse : strictVersionParse v = some pv)
    (hge : versionLtB pv (1, 0, 4) = false) :
    (∃ msg, (connect cfg env).outcome = .error (.apiCallError msg)) ∧
    (connect cfg env).connected = false ∧
    (connect cfg env).transportClosed = true := by
  have hsw := pyStartswith_one_eq_false v c hh hc
  have h := after_resolution_version_head cfg env (connect_resolution cfg env).1
    (connect_resolution cfg env).2.2 v hguard htrans hver hsw
  have hc2 : connect cfg env = connect_after_resolution cfg env
      (connect_resolution cfg env).1 (connect_resolution cfg env).2.2 := by
    simp [connect, hcurl]
  rw [hc2, h]
  exact ⟨⟨_, rfl⟩, hconn, rfl⟩

/-- Witness for C4 at advertised version 2.0.0, numerically above 1.0.4. -/
theorem connect_major_version_mismatch_witness :
    (∃ msg, (connect ⟨"linstor+ssl", "h", none, none, false, false, false⟩
        ⟨.connectFail, true, .ok "2.0.0"⟩).outcome = .error (.apiCallError msg)) ∧
    (connect ⟨"linstor+ssl", "h", none, none, false, false, false⟩
        ⟨.connectFail, true, .ok "2.0.0"⟩).connected = false ∧
    (connect ⟨"linstor+ssl", "h", none, none, false, false, false⟩
        ⟨.connectFail, true, .ok "2.0.0"⟩).transportClosed = true :=
  connect_major_version_mismatch _ _ "2.0.0" '2' (2, 0, 0) rfl rfl (Or.inl rfl) rfl rfl
    rfl (by decide) (by decide) (by decide)

/-- No TLS-discovery probe outcome ever records the transport version query. -/
theorem versionRequest_not_in_probe (p : ProbeOutcome) :
    NetEvent.versionRequest ∉ (has_linstor_https p).2 := by
  cases p <;> simp [has_linstor_https]

/-- C5 counterexample: with credentials set, insecure mode not allowed and a
plain scheme whose probe answers without a redirect (so the resulting transport
would be plaintext), `connect` does fail with the plaintext guard error - but
only after the TLS-discovery probe has already sent a request over the network,
so the failure does not precede every network request. -/
theorem connect_plaintext_guard_probe_sent :
    (connect ⟨"linstor", "h", none, some "admin", false, false, false⟩
        ⟨.response 404 none, true, .ok "1.0.4"⟩).outcome =
      .error (.networkError
        "Password authentication with HTTP not allowed, until explicitly enabled.") ∧
    (connect ⟨"linstor", "h", none, some "admin", false, false, false⟩
        ⟨.response 404 none, true, .ok "1.0.4"⟩).events = [.probeRequest] ∧
    (connect ⟨"linstor", "h", none, some "admin", false, false, false⟩
        ⟨.response 404 none, true, .ok "1.0.4"⟩).events ≠ [] := by
  exact ⟨rfl, rfl, by decide⟩

/-- C5 as amended: with credentials set, insecure mode not allowed and a
resulting plaintext transport, `connect` fails with the plaintext guard
network error before the plaintext transport is even created and before any
request is sent on it (the only network events are those of the TLS-discovery probe);
the `_connected` flag is untouched. -/
theorem connect_plaintext_guard (cfg : ConnectCfg) (env : ConnectEnv)
    (hcurl : cfg.modeCurl = false)
    (hscheme : (cfg.scheme == "linstor+ssl" || cfg.scheme == "https") = false)
    (hprobe : (has_linstor_https env.probe).1 = 0)
    (huser : cfg.username.isSome = true)
    (hsec : cfg.allowInsecure = false) :
    (connect cfg env).outcome = .error (.networkError
      "Password authentication with HTTP not allowed, until explicitly enabled.") ∧
    (connect cfg env).transportHttps = none ∧
    (connect cfg env).connected = cfg.connectedBefore ∧
    (connect cfg env).events = (has_linstor_https env.probe).2 ∧
    NetEvent.versionRequest ∉ (connect cfg env).events := by
  have hres : connect_resolution cfg env =
      (false, (match cfg.urlPort with
        | some p => if p == 0 then REST_PORT else p
        | none => REST_PORT), (has_linstor_https env.probe).2) := by
    simp [connect_resolution, hscheme, hprobe]
  have hafter : ∀ events, connect_after_resolution cfg env false events =
      { outcome := .error (.networkError
          "Password authentication with HTTP not allowed, until explicitly enabled."),
        connected := cfg.connectedBefore, transportHttps := none,
        transportClosed := false, events := events } := by
    intro events
    simp [connect_after_resolution, huser, hsec]
  have hc2 : connect cfg env =
      connect_after_resolution cfg env false (has_linstor_https env.probe).2 := by
    simp only [connect, hcurl, Bool.false_eq_true, if_false, hres]
  rw [hc2, hafter]
  exact ⟨rfl, rfl, rfl, rfl, versionRequest_not_in_probe env.probe⟩

/-- Witness for the amended C5: probe connection refused, credentials set. -/
theorem connect_plaintext_guard_witness :
    (connect ⟨"linstor", "h", none, some "admin", false, false, false⟩
        ⟨.connectFail, true, .ok "1.0.4"⟩).outcome =
      .error (.networkError
        "Password authentication with HTTP not allowed, until explicitly enabled.") ∧
    (connect ⟨"linstor", "h", none, some "admin", false, false, false⟩
        ⟨.connectFail, true, .ok "1.0.4"⟩).transportHttps = none ∧
    (connect ⟨"linstor", "h", none, some "admin", false, false, false⟩
        ⟨.connectFail, true, .ok "1.0.4"⟩).connected = false ∧
    (connect ⟨"linstor", "h", none, some "admin", false, false, false⟩
        ⟨.connectFail, true, .ok "1.0.4"⟩).events =
      (has_linstor_https ProbeOutcome.connectFail).2 ∧
    NetEvent.versionRequest ∉
      (connect ⟨"linstor", "h", none, some "admin", false, false, false⟩
        ⟨.connectFail, true, .ok "1.0.4"⟩).events :=
  connect_plaintext_guard ⟨"linstor", "h", none, some "admin", false, false, false⟩
    ⟨.connectFail, true, .ok "1.0.4"⟩ rfl rfl rfl rfl rfl

/-- Skipping a block of endpoints that all fail with network errors appends one
collected cause per endpoint and continues the loop on the remaining list. -/
theorem multi_connect_go_skip (outcome : String → Except LinError Unit) (total : Nat)
    (rest : List String) :
    ∀ (pre : List String) (acc : List LinError),
      (∀ x ∈ pre, ∃ m, outcome x = .error (.networkError m)) →
      ∃ errs, multi_connect_go outcome total (pre ++ rest) acc =
          multi_connect_go outcome total rest (acc ++ errs) ∧
        errs.length = pre.length ∧ (∀ e ∈ errs, e.isNetworkError = true) := by
  intro pre
  induction pre with
  | nil => intro acc _; exact ⟨[], by simp, rfl, by simp⟩
  | cons x pre ih =>
      intro acc hpre
      obtain ⟨m, hm⟩ := hpre x (by simp)
      obtain ⟨errs, heq, hlen, hmem⟩ :=
        ih (acc ++ [LinError.networkError m]) (fun y hy => hpre y (by simp [hy]))
      refine ⟨.networkError m :: errs, ?_, by simp [hlen], ?_⟩
      · rw [List.cons_append]
        simp only [multi_connect_go, hm, LinError.isNetworkError, if_true]
        rw [heq]
        simp
      · intro e he
        rcases List.mem_cons.mp he with h | h
        · subst h; rfl
        · exact hmem e h

/-- C6: the failover `connect` tries the configured endpoints in order; when a
block of endpoints failing with network errors is followed by one that
connects, the client ends connected to that endpoint with exactly one recorded
network-error cause per endpoint tried before it; when every endpoint fails
with a network error, it raises the aggregate network error carrying one cause
per configured endpoint. -/
theorem multi_connect_failover (outcome : String → Except LinError Unit) :
    (∀ (pre post : List String) (h : String),
      (∀ x ∈ pre, ∃ m, outcome x = .error (.networkError m)) →
      outcome h = .ok () →
      ∃ errs, multi_connect (pre ++ h :: post) outcome = .connected h errs ∧
        errs.length = pre.length ∧ ∀ e ∈ errs, e.isNetworkError = true) ∧
    (∀ hosts : List String,
      (∀ x ∈ hosts, ∃ m, outcome x = .error (.networkError m)) →
      ∃ causes, multi_connect hosts outcome = .aggregateError causes ∧
        causes.length = hosts.length ∧ ∀ e ∈ causes, e.isNetworkError = true) := by
  constructor
  · intro pre post h hpre hsucc
    obtain ⟨errs, heq, hlen, hmem⟩ :=
      multi_connect_go_skip outcome (pre ++ h :: post).length (h :: post) pre [] hpre
    refine ⟨errs, ?_, hlen, hmem⟩
    unfold multi_connect
    rw [heq]
    simp [multi_connect_go, hsucc]
  · intro hosts hall
    obtain ⟨errs, heq, hlen, hmem⟩ :=
      multi_connect_go_skip outcome hosts.length [] hosts [] hall
    rw [List.append_nil] at heq
    refine ⟨errs, ?_, hlen, hmem⟩
    unfold multi_connect
    rw [heq]
    simp [multi_connect_go, hlen]

/-- A concrete endpoint oracle: endpoint a refuses the connection, endpoint b
connects. -/
def failoverOutcome : String → Except LinError Unit
  | "linstor://a" => .error (.networkError "refused")
  | "linstor://b" => .ok ()
  | _ => .error (.networkError "down")

/-- Witness for C6: endpoint a refuses, endpoint b succeeds, and an all-fail
list raises the aggregate error with one cause per endpoint. -/
theorem multi_connect_failover_witness :
    (∃ errs, multi_connect ["linstor://a", "linstor://b"] failoverOutcome =
        .connected "linstor://b" errs ∧ errs.length = 1 ∧
        ∀ e ∈ errs, e.isNetworkError = true) ∧
    (∃ causes, multi_connect ["linstor://a", "linstor://c"] failoverOutcome =
        .aggregateError causes ∧ causes.length = 2 ∧
        ∀ e ∈ causes, e.isNetworkError = true) := by
  constructor
  · exact (multi_connect_failover failoverOutcome).1 ["linstor://a"] [] "linstor://b"
      (by intro x hx; rw [List.mem_singleton] at hx; subst hx; exact ⟨"refused", rfl⟩) rfl
  · exact (multi_connect_failover failoverOutcome).2 ["linstor://a", "linstor://c"]
      (by
        intro x hx
        rcases List.mem_cons.mp hx with h | h
        · subst h; exact ⟨"refused", rfl⟩
        · rw [List.mem_singleton] at h; subst h; exact ⟨"down", rfl⟩)

/-- The plaintext-credentials rejection raised by the connect oracle of the
counterexample below for endpoint a: the exact error `connect` produces for a
plain scheme with credentials set and insecure mode not allowed (a
`LinstorNetworkError`); endpoint b connects. -/
def plaintextGuardOutcome : String → Except LinError Unit
  | "linstor://a" => .error (.networkError
      "Password authentication with HTTP not allowed, until explicitly enabled.")
  | _ => .ok ()

/-- C10 counterexample: the plaintext-credentials rejection is raised by
`connect` as a network error, so during failover it is NOT a failure that
propagates immediately: the loop catches it, records it as a cause, and tries
the next endpoint, ending connected to it.  The first conjunct ties the error
the oracle gives endpoint a to the exact outcome of `connect` under the
plaintext guard; the last shows failover continuing past it. -/
theorem multi_connect_plaintext_guard_caught :
    (connect ⟨"linstor", "a", none, some "admin", false, false, false⟩
        ⟨.connectFail, true, .ok "1.0.4"⟩).outcome =
      .error (.networkError
        "Password authentication with HTTP not allowed, until explicitly enabled.") ∧
    (LinError.networkError
        "Password authentication with HTTP not allowed, until explicitly enabled."
      ).isNetworkError = true ∧
    multi_connect ["linstor://a", "linstor://b"] plaintextGuardOutcome =
      .connected "linstor://b"
        [.networkError
          "Password authentication with HTTP not allowed, until explicitly enabled."] :=
  ⟨rfl, rfl, rfl⟩

/-- C10 as amended: during failover only failures raised as the network-error
type are caught and collected - among them the plaintext-credentials
rejection, which the code raises as a network error and therefore records
before trying the next endpoint; an endpoint whose connect raises any error
that is not a network error (for example the version-incompatibility error)
makes that error escape at once, with the remaining endpoints left untried. -/
theorem multi_connect_non_network_propagates (outcome : String → Except LinError Unit)
    (pre post : List String) (h : String) (e : LinError)
    (hpre : ∀ x ∈ pre, ∃ m, outcome x = .error (.networkError m))
    (hf : outcome h = .error e) (hnn : e.isNetworkError = false) :
    ∃ errs, multi_connect (pre ++ h :: post) outcome = .raised e errs post ∧
      errs.length = pre.length := by
  obtain ⟨errs, heq, hlen, _⟩ :=
    multi_connect_go_skip outcome (pre ++ h :: post).length (h :: post) pre [] hpre
  refine ⟨errs, ?_, hlen⟩
  unfold multi_connect
  rw [heq]
  simp [multi_connect_go, hf, hnn]

/-- A concrete endpoint oracle: endpoint a refuses the connection, endpoint b
raises a version error. -/
def propagateOutcome : String → Except LinError Unit
  | "linstor://a" => .error (.networkError "refused")
  | "linstor://b" => .error (.apiCallError "version mismatch")
  | _ => .ok ()

/-- Witness for the amended C10: the version error of endpoint b escapes
immediately and endpoint c is never tried. -/
theorem multi_connect_non_network_propagates_witness :
    ∃ errs, multi_connect ["linstor://a", "linstor://b", "linstor://c"] propagateOutcome =
        .raised (.apiCallError "version mismatch") errs ["linstor://c"] ∧
      errs.length = 1 :=
  multi_connect_non_network_propagates propagateOutcome ["linstor://a"] ["linstor://c"]
    "linstor://b" (.apiCallError "version mismatch")
    (by intro x hx; rw [List.mem_singleton] at hx; subst hx; exact ⟨"refused", rfl⟩) rfl rfl

end Linstor
